import Mathlib

/-!
Shallow embedding of the `pyjiracloud` client library (`src/__init__.py`,
class `JiraCloud`) and proofs about its specified behaviour.

The remote Jira Cloud service and the HTTP transport are external
collaborators: they are modelled as a pure function from a request to a
result.  Machine state that the Python code threads implicitly (the
session, the accumulated result lists, the pagination cursor) is passed
explicitly.  Loops in the Python code become fuel-indexed recursive
functions returning `Option`: `none` means the fuel ran out, so a result
of `some` for some concrete fuel shows the loop terminates, and a result
of `none` for every fuel shows it never does.  Fallible Python code
(exceptions) becomes `Except PyError`.
-/

namespace PyJiraCloud

/-- The Python exceptions the embedded code can raise.
`httpError` carries the HTTP status code and response body, as raised by
`requests.Response.raise_for_status`; `transportError` models
connection-level failures raised by `requests` itself; `valueError` and
`keyError` model the builtin Python exceptions; `notFound` models the
not-found errors of the spec-only metadata lookup. -/
inductive PyError where
  | httpError : Nat → String → PyError
  | transportError : String → PyError
  | valueError : String → PyError
  | keyError : String → PyError
  | notFound : String → PyError
deriving DecidableEq, Repr

/-- HTTP method of a request issued by the client. -/
inductive Method where
  | GET
  | POST
  | PUT
deriving DecidableEq, Repr

/-- A JSON value, for the request bodies the client constructs. -/
inductive Json where
  | str : String → Json
  | num : Int → Json
  | bool : Bool → Json
  | arr : List Json → Json
  | obj : List (String × Json) → Json

/-- Field lookup in a JSON object, first occurrence wins. -/
def Json.getKey : Json → String → Option Json
  | .obj kvs, k => go kvs k
  | _, _ => none
where
  go : List (String × Json) → String → Option Json
    | [], _ => none
    | (k2, v) :: rest, k => if k2 = k then some v else go rest k

/-- Index into a JSON array. -/
def Json.getIdx : Json → Nat → Option Json
  | .arr xs, i => xs.get? i
  | _, _ => none

/-- Length of a JSON array. -/
def Json.arrLen : Json → Option Nat
  | .arr xs => some xs.length
  | _ => none

/-- One HTTP request as issued by the client primitives: method, full URL,
query parameters, extra headers, optional JSON body. -/
structure HttpReq where
  method : Method
  url : String
  params : List (String × String)
  headers : List (String × String)
  body : Option Json

/-- The HTTP response visible to the client: status code and body text.  -/
structure Response where
  status : Nat
  body : String
deriving DecidableEq, Repr

/-- The transport (the `requests` session plus the remote service): one
request in, either a transport-level failure or a response out. -/
abbrev Transport := HttpReq → Except String Response

/-- `requests.Response.raise_for_status`: raises `HTTPError` exactly when
the status code is in 400..599 (client or server error); any other
status, 2xx or not, passes the response through. -/
def raiseForStatusFn (r : Response) : Except PyError Response :=
  if 400 ≤ r.status ∧ r.status < 600 then .error (.httpError r.status r.body) else .ok r

/-- `JiraCloud.__get` (src/__init__.py lines 31-49): build the URL from
`base_url` unless `full_url`, issue one GET, call `raise_for_status` when
asked, return the response.  The second component is the list of requests
the call put on the wire (always exactly one). -/
def JiraCloud.get (base_url : String) (transport : Transport) (resource_path : String)
    (params : List (String × String)) (raise_for_status : Bool) (full_url : Bool) :
    Except PyError Response × List HttpReq :=
  let url := if full_url then resource_path else base_url ++ resource_path
  let req : HttpReq := ⟨.GET, url, params, [], none⟩
  match transport req with
  | .error e => (.error (.transportError e), [req])
  | .ok r => (if raise_for_status then raiseForStatusFn r else .ok r, [req])

/-- `JiraCloud.__post` (lines 51-70): like `__get` but POST with a JSON
body and a `Content-Type` header. -/
def JiraCloud.post (base_url : String) (transport : Transport) (resource_path : String)
    (params : List (String × String)) (body : Json) (raise_for_status : Bool)
    (full_url : Bool) : Except PyError Response × List HttpReq :=
  let url := if full_url then resource_path else base_url ++ resource_path
  let req : HttpReq := ⟨.POST, url, params, [("Content-Type", "application/json")], some body⟩
  match transport req with
  | .error e => (.error (.transportError e), [req])
  | .ok r => (if raise_for_status then raiseForStatusFn r else .ok r, [req])

/-- `JiraCloud.__put` (lines 73-92): like `__post` with method PUT. -/
def JiraCloud.put (base_url : String) (transport : Transport) (resource_path : String)
    (params : List (String × String)) (body : Json) (raise_for_status : Bool)
    (full_url : Bool) : Except PyError Response × List HttpReq :=
  let url := if full_url then resource_path else base_url ++ resource_path
  let req : HttpReq := ⟨.PUT, url, params, [("Content-Type", "application/json")], some body⟩
  match transport req with
  | .error e => (.error (.transportError e), [req])
  | .ok r => (if raise_for_status then raiseForStatusFn r else .ok r, [req])

/-- The base URL computed by the constructor (line 19). -/
def mkBaseUrl (atlassian_cloud_domain : String) (api_version : Nat) : String :=
  "https://" ++ atlassian_cloud_domain ++ ".atlassian.net/rest/api/" ++
    toString api_version ++ "/"

/-- The client state the constructor builds (lines 19-26): base URL,
domain, basic-auth credentials, fixed 10-second timeout. -/
structure ClientState where
  base_url : String
  atlassian_cloud_domain : String
  auth : String × String
  timeout : Nat
deriving DecidableEq, Repr

/-- `JiraCloud.__init__` (lines 10-29): build the state, then issue the
single liveness GET to `serverInfo` with the default
`raise_for_status=True`; a failure of that probe propagates and no state
is returned.  The second component is the list of requests issued. -/
def JiraCloud.init (atlassian_cloud_domain username api_token : String) (api_version : Nat)
    (transport : Transport) : Except PyError ClientState × List HttpReq :=
  let base := mkBaseUrl atlassian_cloud_domain api_version
  let probe := JiraCloud.get base transport "serverInfo" [] true false
  match probe.1 with
  | .error e => (.error e, probe.2)
  | .ok _ => (.ok ⟨base, atlassian_cloud_domain, (username, api_token), 10⟩, probe.2)

/-! ## Issue search (offset pagination) -/

/-- One page of the `search` endpoint's response: the decoded
`data['issues']` array (items abstracted to identifiers) and the
grand-total `data['total']`. -/
structure SearchPage where
  issues : List Nat
  total : Nat
deriving DecidableEq, Repr

/-- The query parameters of one `search` request that vary between calls:
the optional `startAt` and the optional `maxResults` (the constant `jql`
parameter is carried on every request and omitted). -/
structure SearchReq where
  startAt : Option Nat
  maxResults : Option Nat
deriving DecidableEq, Repr

/-- The remote service's `search` endpoint as a black box: a page for
each combination of `startAt` and `maxResults` parameters. -/
abbrev SearchServe := Option Nat → Option Nat → SearchPage

/-- A conforming Jira search service over a fixed ordered issue list:
a request returns the slice starting at `startAt` (default 0) of length
at most `maxResults` (default: the service page size), and reports the
grand total. -/
def jiraServe (all : List Nat) (pageSize : Nat) : SearchServe :=
  fun startAt maxResults =>
    ⟨(all.drop (startAt.getD 0)).take (maxResults.getD pageSize), all.length⟩

/-- Python truthiness of the `max_results: int = None` argument:
`None` and `0` are falsy. -/
def truthy : Option Nat → Bool
  | none => false
  | some m => m != 0

/-- The `while len(issues) < num_to_grab` loop of `search_issues`
(lines 138-142): request `search` with `jql` and the current `startAt`
(and no `maxResults`), append the returned issues, advance `start_at` by
the number of items just received.  Fuel-indexed; `none` means the fuel
ran out with the guard still true.  Accumulates the request log. -/
def searchLoop (serve : SearchServe) :
    Nat → Nat → List Nat → Nat → List SearchReq → Option (List Nat × List SearchReq)
  | 0, _, issues, num_to_grab, log =>
    if issues.length < num_to_grab then none else some (issues, log)
  | fuel + 1, start_at, issues, num_to_grab, log =>
    if issues.length < num_to_grab then
      let data := serve (some start_at) none
      searchLoop serve fuel (start_at + data.issues.length) (issues ++ data.issues)
        num_to_grab (log ++ [⟨some start_at, none⟩])
    else some (issues, log)

/-- `JiraCloud.search_issues` (lines 108-143): `start_at = 0`; when
`max_results` is truthy and at most 50 the first request carries
`maxResults`, otherwise only `jql`; the first response seeds `issues` and
supplies `total`; `num_to_grab` is `min(max_results, total)` when
`max_results` is truthy, else `total`; then the loop above runs.  Note
the source never advances `start_at` past the first page before entering
the loop.  Returns the issue list and the full request log, or `none`
when the loop exhausts the fuel. -/
def search_issues (serve : SearchServe) (max_results : Option Nat) (fuel : Nat) :
    Option (List Nat × List SearchReq) :=
  let start_at := 0
  let firstReq : SearchReq :=
    if truthy max_results && max_results.getD 0 ≤ 50 then ⟨none, max_results⟩
    else ⟨none, none⟩
  let data := serve firstReq.startAt firstReq.maxResults
  let issues := data.issues
  let num_to_grab :=
    if truthy max_results then min (max_results.getD 0) data.total else data.total
  searchLoop serve fuel start_at issues num_to_grab [firstReq]

/-! ## Project listing (isLast/nextPage pagination) -/

/-- One page of the `project/search` endpoint's response: the decoded
`values` array, the `isLast` flag and the `nextPage` cursor. -/
structure ProjPage where
  values : List Nat
  isLast : Bool
  nextPage : Nat
deriving DecidableEq, Repr

/-- The remote `project/search` endpoint: `none` is the parameterless
first request, `some c` is a request with `startAt=c`. -/
abbrev ProjServe := Option Nat → ProjPage

/-- The `while response['isLast'] is False` loop of `get_projects`
(lines 238-240): request `project/search` with `startAt` set to the
previous response's `nextPage`, append its `values`.  Fuel-indexed;
`none` means the fuel ran out with `isLast` still false. -/
def projLoop (serve : ProjServe) : Nat → List Nat → ProjPage → Option (List Nat)
  | fuel, project_list, response =>
    if response.isLast then some project_list
    else
      match fuel with
      | 0 => none
      | f + 1 =>
        let r := serve (some response.nextPage)
        projLoop serve f (project_list ++ r.values) r

/-- `JiraCloud.get_projects` (lines 229-241): one parameterless request
seeds `project_list` with its `values`, then the loop above drains the
remaining pages. -/
def get_projects (serve : ProjServe) (fuel : Nat) : Option (List Nat) :=
  let response := serve none
  projLoop serve fuel response.values response

/-- A well-formed paginated project service built from a page list:
page `i` holds `pages[i]` as its `values`, reports `isLast` exactly on
the final page, and hands out `i + 1` as the cursor of the next page;
the cursor sent back by the client selects the page it names. -/
def mkProjPage (pages : List (List Nat)) (i : Nat) : ProjPage :=
  ⟨pages.getD i [], decide (pages.length ≤ i + 1), i + 1⟩

/-- The service for `mkProjPage`: the first (parameterless) request gets
page 0, a request with cursor `c` gets page `c`. -/
def mkProjServe (pages : List (List Nat)) : ProjServe
  | none => mkProjPage pages 0
  | some c => mkProjPage pages c

/-! ## User lookup -/

/-- A user record returned by `user/search`, as an association list of
string fields (a Python dict of strings). -/
abbrev UserRec := List (String × String)

/-- Python `d[k]` field access on an association-list dict: the value of
the first matching key, or nothing (a `KeyError` at the use site). -/
def lookupKey : UserRec → String → Option String
  | [], _ => none
  | (k2, v) :: rest, k => if k2 = k then some v else lookupKey rest k

/-- `JiraCloud.get_user_by_email` (lines 210-227), given the decoded
response list `data` of the single `user/search` request: more than one
record raises `ValueError`; an empty list returns `{}`; otherwise
`data[0]['emailAddress']` is read (a missing key raises `KeyError`) and
compared to the query, a mismatch returns `{}` and a match returns the
record. -/
def get_user_by_email (email : String) (data : List UserRec) : Except PyError UserRec :=
  if 1 < data.length then
    .error (.valueError ("More than one user returned from query: \"" ++ email ++ "\""))
  else
    match data with
    | [] => .ok []
    | u :: _ =>
      match lookupKey u "emailAddress" with
      | none => .error (.keyError "emailAddress")
      | some e => if e ≠ email then .ok [] else .ok u

/-- `True` exactly when the embedded call raised a `ValueError`. -/
def isValueError {α : Type} : Except PyError α → Bool
  | .error (.valueError _) => true
  | _ => false

/-! ## Text comments -/

/-- The comment request body built by `add_text_comment` (lines 172-197):
the fixed single-paragraph single-text-run document envelope plus the
`sd.public.comment` visibility property. -/
def commentBody (comment : String) (is_internal : Bool) : Json :=
  .obj [
    ("properties", .arr [
      .obj [
        ("key", .str "sd.public.comment"),
        ("value", .obj [("internal", .bool is_internal)])]]),
    ("body", .obj [
      ("version", .num 1),
      ("type", .str "doc"),
      ("content", .arr [
        .obj [
          ("type", .str "paragraph"),
          ("content", .arr [
            .obj [
              ("type", .str "text"),
              ("text", .str comment)]])]])])]

/-- `JiraCloud.add_text_comment` (lines 158-197): POST the body above to
the issue's comment sub-resource with the default flags. -/
def add_text_comment (base_url : String) (transport : Transport)
    (issue_id_or_key comment : String) (is_internal : Bool) :
    Except PyError Response × List HttpReq :=
  JiraCloud.post base_url transport ("issue/" ++ issue_id_or_key ++ "/comment") []
    (commentBody comment is_internal) true false

/-! ## Create-issue metadata (spec-only operation) -/

/-- An issue-type object inside a createmeta response, an opaque record
with its `name` field distinguished. -/
structure IssueTypeMeta where
  name : String
  fields : List (String × String)
deriving DecidableEq, Repr

/-- A project object inside a createmeta response, with its one-element
`issuetypes` collection. -/
structure ProjectMeta where
  key : String
  issuetypes : List IssueTypeMeta
deriving DecidableEq, Repr

/-- The decoded createmeta response: its `projects` collection. -/
structure CreateMetaResponse where
  projects : List ProjectMeta
deriving DecidableEq, Repr

/-- The reshaped metadata: the matched project and issue type promoted
out of their one-element collections into top-level keys. -/
structure CreateIssueMeta where
  project : ProjectMeta
  issuetype : IssueTypeMeta
deriving DecidableEq, Repr

/-- Modelled from the spec: `get_create_issue_meta` is described in spec
sections 4.4 and 8 but absent from `src/__init__.py`.  Per the spec it
GETs createmeta filtered to the one project and issue type (`resp` is the
decoded filtered response), fails with a not-found error when `projects`
is empty, fails with a different not-found error when the matched project
has no issue type of the given name, and otherwise promotes the matched
project and issue-type objects to top-level keys. -/
def get_create_issue_meta (project_key issue_type_name : String)
    (resp : CreateMetaResponse) : Except PyError CreateIssueMeta :=
  match resp.projects with
  | [] => .error (.notFound ("Project not found: " ++ project_key))
  | project :: _ =>
    match project.issuetypes.find? (fun it => it.name == issue_type_name) with
    | none => .error (.notFound ("Issue type not found: " ++ issue_type_name))
    | some it => .ok ⟨project, it⟩

/-! ## Theorems -/

/-- Helper: against a service reporting a positive total whose pages are
all empty, the `search_issues` loop makes no progress — the cursor and
the accumulator are unchanged by an empty page — so every amount of fuel
is exhausted. -/
theorem searchLoop_empty_pages (fuel : Nat) (log : List SearchReq) :
    searchLoop (fun _ _ => ⟨[], 5⟩) fuel 0 [] 5 log = none := by
  induction fuel generalizing log with
  | zero => simp [searchLoop]
  | succ f ih => simpa [searchLoop] using ih (log ++ [⟨some 0, none⟩])

/-- Helper: against a service whose every page has `isLast` false and no
values, the `get_projects` loop never reaches a terminal page, so every
amount of fuel is exhausted. -/
theorem projLoop_empty_pages (fuel : Nat) (acc : List Nat) :
    projLoop (fun _ => ⟨[], false, 0⟩) fuel acc ⟨[], false, 0⟩ = none := by
  induction fuel generalizing acc with
  | zero => simp [projLoop]
  | succ f ih => simpa [projLoop] using ih acc

/-- C1.  The claim says `search_issues` without `max_results` returns
exactly `total` pairwise-distinct items in service order whenever the
total exceeds one page.  The code violates it: `start_at` is never
advanced past the first page, so the loop's first request repeats
`startAt=0` and the first page is accumulated twice.  Against a
conforming service holding the 4 distinct issues `0,1,2,3` with page
size 2, the code issues the requests `(no startAt)` then `startAt=0` and
returns `[0,1,0,1]`: duplicates, and not the service's ordered list. -/
theorem c1_search_issues_duplicates_first_page :
    search_issues (jiraServe (List.range 4) 2) none 2 =
      some ([0, 1, 0, 1], [⟨none, none⟩, ⟨some 0, none⟩]) ∧
    ¬ ([0, 1, 0, 1] : List Nat).Nodup ∧
    ([0, 1, 0, 1] : List Nat) ≠ List.range 4 :=
  ⟨by decide, by decide, by decide⟩

/-- C2 counterexample.  The claim says a caller-supplied `max_results`
makes `search_issues` stop at `min max_results total`.  With
`max_results = 60` against a conforming service of total 100 and page
size 50, the code returns 100 items, not `min 60 100 = 60`: a
`max_results` above 50 is not sent to the service and the loop never
truncates the accumulated pages. -/
theorem c2_counterexample_cap_sixty :
    (search_issues (jiraServe (List.range 100) 50) (some 60) 1).map
        (fun p => p.1.length) = some 100 ∧
    (100 : Nat) ≠ min 60 100 :=
  ⟨rfl, by decide⟩

/-- C2 amended.  When `max_results` is between 1 and 50, `search_issues`
issues exactly one request, carrying exactly `max_results` in its
`maxResults` parameter and no `startAt`, and returns exactly the first
`min max_results total` items of the service in order (no loop
iteration is needed: fuel 0 suffices). -/
theorem c2_search_issues_small_cap (all : List Nat) (pageSize m : Nat)
    (h1 : 1 ≤ m) (h2 : m ≤ 50) :
    search_issues (jiraServe all pageSize) (some m) 0 =
      some (all.take m, [⟨none, some m⟩]) ∧
    (all.take m).length = min m all.length := by
  have hm : m ≠ 0 := by omega
  have hlen : (all.take m).length = min m all.length := List.length_take m all
  refine ⟨?_, hlen⟩
  simp [search_issues, searchLoop, truthy, jiraServe, hm, h2, hlen]

/-- C2 witness: the claim's own scenario, `max_results = 10` against a
service total of 100, returns exactly the 10 first items with a single
request asking for exactly 10. -/
theorem c2_small_cap_witness :
    search_issues (jiraServe (List.range 100) 50) (some 10) 0 =
      some ((List.range 100).take 10, [⟨none, some 10⟩]) ∧
    ((List.range 100).take 10).length = min 10 (List.range 100).length :=
  c2_search_issues_small_cap (List.range 100) 50 10 (by decide) (by decide)

/-- C3.  The claim says a zero-item page without a terminal flag makes
each pagination loop terminate by raising an error.  The code has no
such guard: against a search service reporting total 5 whose every page
is empty, and against a project service whose every page has `isLast`
false and no values, the loops re-issue the same request forever — for
every fuel bound the embedded loops are still running (`none`), and no
error is ever raised. -/
theorem c3_zero_item_pages_spin_forever :
    (∀ fuel, search_issues (fun _ _ => ⟨[], 5⟩) none fuel = none) ∧
    (∀ fuel, get_projects (fun _ => ⟨[], false, 0⟩) fuel = none) :=
  ⟨fun fuel => by simpa [search_issues, truthy] using
      searchLoop_empty_pages fuel [⟨none, none⟩],
   fun fuel => by simpa [get_projects] using projLoop_empty_pages fuel []⟩

/-- C4 counterexample.  The claim says that with `raise_for_status=True`
any non-2xx response raises.  `requests.Response.raise_for_status`
raises only for statuses 400..599, so a 304 response — not a 2xx — is
returned unchanged by `__get` instead of raising. -/
theorem c4_counterexample_status_304 :
    (JiraCloud.get "https://d.atlassian.net/rest/api/3/"
        (fun _ => .ok ⟨304, "not modified"⟩) "issue/DEMO-1" [] true false).1 =
      .ok ⟨304, "not modified"⟩ ∧
    ¬ (200 ≤ 304 ∧ 304 < 300) :=
  ⟨rfl, by decide⟩

/-- C4 amended.  For each primitive (`__get`, `__post`, `__put`): with
`raise_for_status=True`, a response raises an HTTP error carrying its
status and body exactly when the status is 4xx or 5xx, and is returned
unchanged otherwise (so 2xx — and any status below 400 — passes); with
`raise_for_status=False` the raw response is returned unchanged
regardless of status; a transport-level failure always propagates. -/
theorem c4_primitives_raise_for_status (base path : String)
    (params : List (String × String)) (b : Json) (r : Response) (e : String)
    (rfs fu : Bool) :
    ((JiraCloud.get base (fun _ => .ok r) path params true fu).1 =
        (if 400 ≤ r.status ∧ r.status < 600 then .error (.httpError r.status r.body)
         else .ok r) ∧
      (JiraCloud.get base (fun _ => .ok r) path params false fu).1 = .ok r ∧
      (JiraCloud.get base (fun _ => .error e) path params rfs fu).1 =
        .error (.transportError e)) ∧
    ((JiraCloud.post base (fun _ => .ok r) path params b true fu).1 =
        (if 400 ≤ r.status ∧ r.status < 600 then .error (.httpError r.status r.body)
         else .ok r) ∧
      (JiraCloud.post base (fun _ => .ok r) path params b false fu).1 = .ok r ∧
      (JiraCloud.post base (fun _ => .error e) path params b rfs fu).1 =
        .error (.transportError e)) ∧
    ((JiraCloud.put base (fun _ => .ok r) path params b true fu).1 =
        (if 400 ≤ r.status ∧ r.status < 600 then .error (.httpError r.status r.body)
         else .ok r) ∧
      (JiraCloud.put base (fun _ => .ok r) path params b false fu).1 = .ok r ∧
      (JiraCloud.put base (fun _ => .error e) path params b rfs fu).1 =
        .error (.transportError e)) :=
  ⟨⟨rfl, rfl, rfl⟩, ⟨rfl, rfl, rfl⟩, ⟨rfl, rfl, rfl⟩⟩

/-- C5 counterexample.  The claim says a non-2xx liveness probe aborts
construction.  A 304 probe response is not a 2xx, yet
`raise_for_status` passes it through and the constructor returns the
fully built client state. -/
theorem c5_counterexample_probe_304 :
    (JiraCloud.init "d" "u" "t" 3 (fun _ => .ok ⟨304, "not modified"⟩)).1 =
      .ok ⟨mkBaseUrl "d" 3, "d", ("u", "t"), 10⟩ ∧
    ¬ (200 ≤ 304 ∧ 304 < 300) :=
  ⟨rfl, by decide⟩

/-- C5 amended.  For every constructor input and transport, construction
issues exactly one request: a GET to the `serverInfo` endpoint under the
computed base URL.  A transport-level failure of that probe propagates
and no client state is produced, and a probe response aborts
construction exactly when its status is 4xx or 5xx (the error carrying
that status); otherwise the client state — base URL, domain, basic-auth
credentials, 10-second timeout — is returned.  Domain methods all take
that state, so none is usable before the probe. -/
theorem c5_init_probe (domain username token : String) (version : Nat) :
    (∀ transport : Transport,
      (JiraCloud.init domain username token version transport).2 =
        [⟨.GET, mkBaseUrl domain version ++ "serverInfo", [], [], none⟩]) ∧
    (∀ e, (JiraCloud.init domain username token version (fun _ => .error e)).1 =
      .error (.transportError e)) ∧
    (∀ r, (JiraCloud.init domain username token version (fun _ => .ok r)).1 =
      (if 400 ≤ r.status ∧ r.status < 600 then .error (.httpError r.status r.body)
       else .ok ⟨mkBaseUrl domain version, domain, (username, token), 10⟩)) := by
  have hlog : ∀ transport : Transport,
      (JiraCloud.init domain username token version transport).2 =
        [⟨.GET, mkBaseUrl domain version ++ "serverInfo", [], [], none⟩] := by
    intro transport
    cases htr : transport ⟨.GET, mkBaseUrl domain version ++ "serverInfo", [], [], none⟩ with
    | error e2 => simp [JiraCloud.init, JiraCloud.get, htr]
    | ok r2 =>
      cases hrs : raiseForStatusFn r2 with
      | error e3 => simp [JiraCloud.init, JiraCloud.get, htr, hrs]
      | ok r3 => simp [JiraCloud.init, JiraCloud.get, htr, hrs]
  refine ⟨hlog, fun e => rfl, fun r => ?_⟩
  by_cases hc : 400 ≤ r.status ∧ r.status < 600 <;>
    simp [JiraCloud.init, JiraCloud.get, raiseForStatusFn, hc]

/-- C6.  `get_user_by_email` raises `ValueError` exactly when the
service returned more than one user record; on a single record carrying
an `emailAddress` field it returns the full record when that field
equals the query and the empty mapping when it does not. -/
theorem c6_get_user_by_email_validation (email : String) (data : List UserRec) :
    (isValueError (get_user_by_email email data) = true ↔ 1 < data.length) ∧
    (∀ u e, data = [u] → lookupKey u "emailAddress" = some e →
      get_user_by_email email data =
        (if e = email then .ok u else .ok ([] : UserRec))) := by
  constructor
  · match data with
    | [] => simp [get_user_by_email, isValueError]
    | [u] =>
      cases h : lookupKey u "emailAddress" with
      | none => simp [get_user_by_email, h, isValueError]
      | some e =>
        by_cases he : e = email <;>
          simp [get_user_by_email, h, he, isValueError]
    | u :: v :: rest =>
      simp [get_user_by_email, isValueError]
  · intro u e hdata hlk
    subst hdata
    by_cases he : e = email <;>
      simp [get_user_by_email, hlk, he]

/-- C6 witness: one record whose email `a@c.com` does not match the
query `a@b.com` yields the empty mapping. -/
theorem c6_mismatch_witness :
    get_user_by_email "a@b.com" [[("emailAddress", "a@c.com")]] = .ok ([] : UserRec) := by
  have h := (c6_get_user_by_email_validation "a@b.com"
      [[("emailAddress", "a@c.com")]]).2
    [("emailAddress", "a@c.com")] "a@c.com" rfl (by decide)
  rw [if_neg (by decide)] at h
  exact h

/-- Helper: the `get_projects` loop returns the accumulator as soon as
the current response has `isLast` true, whatever the fuel. -/
theorem projLoop_isLast (serve : ProjServe) (fuel : Nat) (acc : List Nat)
    (resp : ProjPage) (h : resp.isLast = true) :
    projLoop serve fuel acc resp = some acc := by
  cases fuel <;> simp [projLoop, h]

/-- Helper: on a non-terminal response the `get_projects` loop requests
the page named by the cursor, appends its values and continues. -/
theorem projLoop_step (serve : ProjServe) (fuel : Nat) (acc : List Nat)
    (resp : ProjPage) (h : resp.isLast = false) :
    projLoop serve (fuel + 1) acc resp =
      projLoop serve fuel (acc ++ (serve (some resp.nextPage)).values)
        (serve (some resp.nextPage)) := by
  simp [projLoop, h]

/-- Helper: running the `get_projects` loop from page `k` of a
well-formed paginated service with enough fuel for the remaining pages
returns the accumulator followed by the remaining pages' values. -/
theorem projLoop_mkProjServe (pages : List (List Nat)) :
    ∀ (fuel k : Nat) (acc : List Nat), k < pages.length →
      pages.length - (k + 1) ≤ fuel →
      projLoop (mkProjServe pages) fuel acc (mkProjPage pages k) =
        some (acc ++ (pages.drop (k + 1)).flatten) := by
  intro fuel
  induction fuel with
  | zero =>
    intro k acc hk hfuel
    have hlast : pages.length ≤ k + 1 := by omega
    have hdrop : pages.drop (k + 1) = [] := List.drop_eq_nil_of_le hlast
    have hl : (mkProjPage pages k).isLast = true := by simp [mkProjPage]; omega
    rw [projLoop_isLast _ _ _ _ hl, hdrop]
    simp
  | succ f ih =>
    intro k acc hk hfuel
    by_cases hlast : pages.length ≤ k + 1
    · have hdrop : pages.drop (k + 1) = [] := List.drop_eq_nil_of_le hlast
      have hl : (mkProjPage pages k).isLast = true := by simp [mkProjPage]; omega
      rw [projLoop_isLast _ _ _ _ hl, hdrop]
      simp
    · have hk1 : k + 1 < pages.length := by omega
      have hl : (mkProjPage pages k).isLast = false := by
        simp [mkProjPage]; omega
      have hserve : mkProjServe pages (some (mkProjPage pages k).nextPage) =
          mkProjPage pages (k + 1) := rfl
      rw [projLoop_step _ _ _ _ hl, hserve,
        ih (k + 1) (acc ++ (mkProjPage pages (k + 1)).values) hk1 (by omega)]
      have hgetD : (mkProjPage pages (k + 1)).values = pages[k + 1] := by
        simp [mkProjPage, List.getD_eq_getElem?_getD, List.getElem?_eq_getElem hk1]
      have hdrop : pages.drop (k + 1) = pages[k + 1] :: pages.drop (k + 1 + 1) :=
        List.drop_eq_getElem_cons hk1
      rw [hgetD, hdrop, List.flatten_cons, List.append_assoc]

/-- C7.  Against any well-formed paginated project service — each page's
`isLast` true exactly on the final page, each non-final page supplying
the cursor of its successor — `get_projects` terminates within one
request per page and returns the concatenation of all pages' `values`
arrays in page order. -/
theorem c7_get_projects_drains_pages (pages : List (List Nat)) (h : pages ≠ []) :
    get_projects (mkProjServe pages) pages.length = some pages.flatten := by
  have hpos : 0 < pages.length := List.length_pos.mpr h
  have hrun := projLoop_mkProjServe pages pages.length 0 (pages.getD 0 []) hpos (by omega)
  match pages, h with
  | p :: ps, _ =>
    simpa [get_projects, mkProjServe, mkProjPage] using hrun

/-- C7 witness: two pages `[1,2]` and `[3]` are drained into
`[1,2,3]` with fuel (request budget) equal to the page count. -/
theorem c7_two_pages_witness :
    get_projects (mkProjServe [[1, 2], [3]]) 2 = some [1, 2, 3] := by
  have h := c7_get_projects_drains_pages [[1, 2], [3]] (by decide)
  simpa using h

/-- C8.  For every issue, comment text and visibility flag,
`add_text_comment` puts exactly one request on the wire: a POST to the
issue's comment sub-resource whose JSON body is the fixed envelope —
`properties[0].key` is `sd.public.comment`, `properties[0].value.internal`
is the `is_internal` argument, and the body document has version 1, type
`doc`, and exactly one paragraph holding exactly one text node whose
text is the comment.  Instantiated at comment `hello` with
`is_internal = false` this is the claim's concrete scenario. -/
theorem c8_add_text_comment_envelope (base : String) (transport : Transport)
    (issue comment : String) (b : Bool) :
    (add_text_comment base transport issue comment b).2 =
      [⟨.POST, base ++ ("issue/" ++ issue ++ "/comment"), [],
        [("Content-Type", "application/json")], some (commentBody comment b)⟩] ∧
    ((commentBody comment b).getKey "properties" >>= (·.getIdx 0) >>=
        (·.getKey "key")) = some (.str "sd.public.comment") ∧
    ((commentBody comment b).getKey "properties" >>= (·.getIdx 0) >>=
        (·.getKey "value") >>= (·.getKey "internal")) = some (.bool b) ∧
    ((commentBody comment b).getKey "properties" >>= (·.arrLen)) = some 1 ∧
    ((commentBody comment b).getKey "body" >>= (·.getKey "version")) = some (.num 1) ∧
    ((commentBody comment b).getKey "body" >>= (·.getKey "type")) = some (.str "doc") ∧
    ((commentBody comment b).getKey "body" >>= (·.getKey "content") >>=
        (·.arrLen)) = some 1 ∧
    ((commentBody comment b).getKey "body" >>= (·.getKey "content") >>=
        (·.getIdx 0) >>= (·.getKey "type")) = some (.str "paragraph") ∧
    ((commentBody comment b).getKey "body" >>= (·.getKey "content") >>=
        (·.getIdx 0) >>= (·.getKey "content") >>= (·.arrLen)) = some 1 ∧
    ((commentBody comment b).getKey "body" >>= (·.getKey "content") >>=
        (·.getIdx 0) >>= (·.getKey "content") >>= (·.getIdx 0) >>=
        (·.getKey "type")) = some (.str "text") ∧
    ((commentBody comment b).getKey "body" >>= (·.getKey "content") >>=
        (·.getIdx 0) >>= (·.getKey "content") >>= (·.getIdx 0) >>=
        (·.getKey "text")) = some (.str comment) := by
  refine ⟨?_, rfl, rfl, rfl, rfl, rfl, rfl, rfl, rfl, rfl, rfl⟩
  cases htr : transport ⟨.POST, base ++ ("issue/" ++ issue ++ "/comment"), [],
      [("Content-Type", "application/json")], some (commentBody comment b)⟩ with
  | error e => simp [add_text_comment, JiraCloud.post, htr]
  | ok r =>
    cases hrs : raiseForStatusFn r with
    | error e2 => simp [add_text_comment, JiraCloud.post, htr, hrs]
    | ok r2 => simp [add_text_comment, JiraCloud.post, htr, hrs]

/-- Helper: the two not-found messages of `get_create_issue_meta` differ
for every project key and issue-type name: their first characters
already disagree. -/
theorem create_meta_messages_differ (pk itn : String) :
    ("Project not found: " ++ pk) ≠ ("Issue type not found: " ++ itn) := by
  intro h
  have h2 : some 'P' = some 'I' :=
    congrArg (fun s => s.data.head?) h
  exact absurd h2 (by decide)

/-- C9.  `get_create_issue_meta` (modelled from the spec, absent from
the source): an empty `projects` collection fails with the project
not-found error; a matched project with no issue type of the requested
name fails with the distinct issue-type not-found error; otherwise the
matched project and issue type are promoted to the top-level keys of
the result. -/
theorem c9_get_create_issue_meta_lookup (pk itn : String) (resp : CreateMetaResponse) :
    (resp.projects = [] →
      get_create_issue_meta pk itn resp =
        .error (.notFound ("Project not found: " ++ pk))) ∧
    (∀ p rest, resp.projects = p :: rest →
      p.issuetypes.find? (fun it => it.name == itn) = none →
      get_create_issue_meta pk itn resp =
        .error (.notFound ("Issue type not found: " ++ itn))) ∧
    ("Project not found: " ++ pk) ≠ ("Issue type not found: " ++ itn) ∧
    (∀ p rest it, resp.projects = p :: rest →
      p.issuetypes.find? (fun it2 => it2.name == itn) = some it →
      get_create_issue_meta pk itn resp = .ok ⟨p, it⟩) := by
  refine ⟨?_, ?_, create_meta_messages_differ pk itn, ?_⟩
  · intro hp
    simp [get_create_issue_meta, hp]
  · intro p rest hp hfind
    simp [get_create_issue_meta, hp, hfind]
  · intro p rest it hp hfind
    simp [get_create_issue_meta, hp, hfind]

/-- C9 witness: with no projects the project not-found error is raised,
and with one matched project holding no issue types the issue-type
not-found error is raised; the two errors differ. -/
theorem c9_not_found_witness :
    get_create_issue_meta "PROJ" "Bug" ⟨[]⟩ =
      .error (.notFound ("Project not found: " ++ "PROJ")) ∧
    get_create_issue_meta "PROJ" "Bug" ⟨[⟨"PROJ", []⟩]⟩ =
      .error (.notFound ("Issue type not found: " ++ "Bug")) ∧
    ("Project not found: " ++ "PROJ") ≠ ("Issue type not found: " ++ "Bug") :=
  ⟨(c9_get_create_issue_meta_lookup "PROJ" "Bug" ⟨[]⟩).1 rfl,
   (c9_get_create_issue_meta_lookup "PROJ" "Bug" ⟨[⟨"PROJ", []⟩]⟩).2.1
     ⟨"PROJ", []⟩ [] rfl rfl,
   (c9_get_create_issue_meta_lookup "PROJ" "Bug" ⟨[]⟩).2.2.1⟩

/-- C10.  `get_user_by_email` on an empty service result returns the
empty mapping without raising or indexing; but a single record lacking
the `emailAddress` field makes it fail with a `KeyError` rather than
return. -/
theorem c10_get_user_by_email_edge_shapes (email : String) :
    get_user_by_email email [] = .ok ([] : UserRec) ∧
    (∀ u : UserRec, lookupKey u "emailAddress" = none →
      get_user_by_email email [u] = .error (.keyError "emailAddress")) := by
  refine ⟨rfl, fun u h => ?_⟩
  simp [get_user_by_email, h]

/-- C10 witness: the empty result list yields the empty mapping, and a
single record with only a `name` field raises `KeyError`. -/
theorem c10_missing_field_witness :
    get_user_by_email "a@b.com" [] = .ok ([] : UserRec) ∧
    get_user_by_email "a@b.com" [[("name", "x")]] = .error (.keyError "emailAddress") :=
  ⟨(c10_get_user_by_email_edge_shapes "a@b.com").1,
   (c10_get_user_by_email_edge_shapes "a@b.com").2 [("name", "x")] (by decide)⟩

end PyJiraCloud
